import Mathlib

/-!
Verification of the tgup transfer pipeline (src/tgup) against its
natural-language specification. The Python sources are shallowly embedded:
pure functions of models.py / config.py / pipeline.py become Lean functions,
the producer/consumer pipeline of pipeline.py becomes a per-item step
function plus a small-step transition system over configurations; the
external collaborators (Telegram client, MEGA manager, uploader, duplicate
API, progress sink) are an explicit environment record.
-/

namespace Tgup

/-! ## Data model: config.py -/

/-- Embedding of config.MediaType. -/
inductive MediaType where
  | video
  | photo
  | document
deriving DecidableEq

/-- Embedding of config.MediaFilter. -/
inductive MediaFilter where
  | all
  | video
  | photo
deriving DecidableEq

/-- Embedding of config.DownloadOptions. Python optional ints
(min_resolution, min_duration) become Option Nat; Python treats None and 0
as falsy, which the pipeline embedding reproduces explicitly. -/
structure DownloadOptions where
  source : String
  limit : Nat := 100
  reverse : Bool := false
  media_filter : MediaFilter := MediaFilter.all
  min_resolution : Option Nat := none
  min_duration : Option Nat := none
  dest_folder : String := "/Telegram"
deriving DecidableEq

/-! ## Data model: models.py -/

/-- The date part of the Python datetime carried by a Media value; only the
day/month/year components are read by Media.download_name (via
strftime with the fixed format day-month-year). -/
structure Datetime where
  day : Nat
  month : Nat
  year : Nat
deriving DecidableEq

/-- Embedding of models.Media (a frozen dataclass). -/
structure Media where
  message_id : Nat
  chat_id : Nat
  date : Datetime
  media_type : MediaType
  file_size : Nat := 0
  filename : Option String := none
  mime_type : Option String := none
  width : Option Nat := none
  height : Option Nat := none
  duration : Option Nat := none
  document_id : Option String := none
deriving DecidableEq

/-- Python truthiness of an optional string: None and the empty string are
falsy. -/
def truthyStr (o : Option String) : Bool :=
  match o with
  | none => false
  | some s => !(s == "")

/-- Two-digit zero-padded rendering, as strftime produces for the day and
month fields. -/
def pad2 (n : Nat) : String :=
  if n < 10 then "0" ++ toString n else toString n

/-- The strftime rendering of the fixed date format used by
Media.download_name: two-digit day, two-digit month, then the year. -/
def dateCode (d : Datetime) : String :=
  pad2 d.day ++ pad2 d.month ++ toString d.year

/-- Index of the last dot in a list of characters, if any
(Python str.rfind used by pathlib's stem/suffix). -/
def lastDotIdx : List Char → Option Nat
  | [] => none
  | c :: cs =>
    match lastDotIdx cs with
    | some i => some (i + 1)
    | none => if c == '.' then some 0 else none

/-- The name (final component) of a pathlib Path built from a filename:
the last nonempty slash-separated component. -/
def pathNameOf (s : String) : String :=
  ((s.splitOn "/").filter (fun t => !(t == ""))).getLastD ""

/-- pathlib's suffix of a name: the part from the last dot on, provided that
dot is neither the first nor the last character; empty otherwise. -/
def pathSuffixOf (name : String) : String :=
  let l := name.data
  match lastDotIdx l with
  | some i => if 0 < i && i + 1 < l.length then String.mk (l.drop i) else ""
  | none => ""

/-- pathlib's stem of a name: the part before the last dot, provided that
dot is neither the first nor the last character; the whole name otherwise. -/
def pathStemOf (name : String) : String :=
  let l := name.data
  match lastDotIdx l with
  | some i => if 0 < i && i + 1 < l.length then String.mk (l.take i) else name
  | none => name

/-- The mime-type-to-extension table of Media._guess_ext. -/
def mimeExtMap : List (String × String) :=
  [("video/mp4", ".mp4"), ("video/webm", ".webm"), ("video/quicktime", ".mov"),
   ("image/jpeg", ".jpg"), ("image/png", ".png"), ("image/webp", ".webp")]

/-- Embedding of Media._guess_ext: if the mime type is truthy, look it up in
the table with default ".mp4"; otherwise ".mp4" for videos and ".jpg" for
everything else. -/
def Media.guess_ext (m : Media) : String :=
  match m.mime_type with
  | some mt =>
    if mt == "" then
      match m.media_type with
      | MediaType.video => ".mp4"
      | _ => ".jpg"
    else
      match mimeExtMap.lookup mt with
      | some e => e
      | none => ".mp4"
  | none =>
    match m.media_type with
    | MediaType.video => ".mp4"
    | _ => ".jpg"

/-- Embedding of Media.download_name: message id and date-code base, then
either the original filename's stem and extension (falling back to a guessed
extension when the original has none) or just a guessed extension. -/
def Media.download_name (m : Media) : String :=
  let date_str := dateCode m.date
  let base := toString m.message_id ++ "_" ++ date_str
  match m.filename with
  | some fn =>
    if fn == "" then base ++ m.guess_ext
    else
      let nm := pathNameOf fn
      let stem := pathStemOf nm
      let sfx := pathSuffixOf nm
      let ext := if sfx == "" then m.guess_ext else sfx
      base ++ "_" ++ stem ++ ext
  | none => base ++ m.guess_ext

/-! ## Skip decision: Pipeline._should_skip -/

/-- Embedding of Pipeline._should_skip. Python truthiness is explicit: the
resolution rule applies only when min_resolution, width and height are all
present and nonzero; the duration rule only when min_duration and duration
are present and nonzero. -/
def should_skip (opts : DownloadOptions) (m : Media) : Bool :=
  let resSkip :=
    match opts.min_resolution, m.width, m.height with
    | some r, some w, some h =>
      (!(r == 0)) && (!(w == 0)) && (!(h == 0)) && decide (min w h < r)
    | _, _, _ => false
  let durSkip :=
    match opts.min_duration, m.duration with
    | some d, some dur =>
      (!(d == 0)) && (!(dur == 0)) && decide (dur < d)
    | _, _ => false
  resSkip || durSkip

/-- The skip decision as claim C4 words it: the resolution rule applies
whenever min_resolution is configured positive and width and height are
known (present), and the duration rule whenever min_duration is configured
positive and duration is known. -/
def shouldSkipClaim (opts : DownloadOptions) (m : Media) : Bool :=
  let resSkip :=
    match opts.min_resolution, m.width, m.height with
    | some r, some w, some h => decide (0 < r) && decide (min w h < r)
    | _, _, _ => false
  let durSkip :=
    match opts.min_duration, m.duration with
    | some d, some dur => decide (0 < d) && decide (dur < d)
    | _, _ => false
  resSkip || durSkip

/-- The skip decision as amended: as claim C4, but the known width, height
and duration must additionally be nonzero (a zero attribute is treated like
a missing one, exactly as Python truthiness does). -/
def shouldSkipAmended (opts : DownloadOptions) (m : Media) : Bool :=
  let resSkip :=
    match opts.min_resolution, m.width, m.height with
    | some r, some w, some h =>
      decide (0 < r) && decide (0 < w) && decide (0 < h) && decide (min w h < r)
    | _, _, _ => false
  let durSkip :=
    match opts.min_duration, m.duration with
    | some d, some dur =>
      decide (0 < d) && decide (0 < dur) && decide (dur < d)
    | _, _ => false
  resSkip || durSkip

/-! ## Pipeline state: pipeline.py -/

/-- Embedding of pipeline.Stats: the five run-scoped counters. -/
structure Stats where
  total : Nat := 0
  downloaded : Nat := 0
  uploaded : Nat := 0
  skipped : Nat := 0
  failed : Nat := 0
deriving DecidableEq

/-- One _notify invocation the pipeline performs (the hook itself may be
absent or may throw; the invocation is recorded either way, mirroring the
call sites of _notify in pipeline.py). -/
inductive Event where
  | start (m : Media)
  | download (m : Media)
  | upload (m : Media) (source_id : String)
  | skip (m : Media) (reason : String)
  | error (m : Media) (message : String)
deriving DecidableEq

/-- Embedding of pipeline.PipelineCallbacks: each hook is optional, and a
present hook is a function that may raise (Except.error stands for a raised
exception inside the hook). -/
structure PipelineCallbacks where
  on_start : Option (Media → Except Unit Unit) := none
  on_download : Option (Media → Except Unit Unit) := none
  on_upload : Option (Media → String → Except Unit Unit) := none
  on_skip : Option (Media → String → Except Unit Unit) := none
  on_error : Option (Media → String → Except Unit Unit) := none
  on_download_progress : Option (Nat → Nat → Except Unit Unit) := none
  on_upload_progress : Option (Nat → Nat → Except Unit Unit) := none

/-- Embedding of models.UploadResult, what uploader.upload_telegram
resolves to when it does not raise. -/
structure UploadResult where
  success : Bool
  source_id : Option String := none
  error : Option String := none
deriving DecidableEq

/-- The external collaborators of spec section 6, as response oracles:
MEGA manager (bulk listing, per-path existence check, either may be absent
or raise), duplicate-index client (configured or not, with the ids its load
produced), Telegram downloader and MEGA uploader (per-item network outcome,
and the progress invocations each transfer emits). The downloader and
uploader invoke the progress callback the pipeline hands them on each
progress event and propagate an exception the callback raises, which is
ordinary Python call behavior for the relays built at pipeline.py lines
99 and 151-152. -/
structure ExternalEnv where
  megaHasListAll : Bool
  listAllNames : Except Unit (List String)
  megaHasExists : Bool
  megaExists : String → Except Unit Bool
  dupConfigured : Bool
  loadedDupIds : List String
  download_dir : String
  dlProgressEvents : Media → List (Nat × Nat)
  dlOutcome : Media → Except String Unit
  upProgressEvents : Media → List (Nat × Nat)
  upOutcome : Media → Except String UploadResult

/-- Set-style insertion into a list of names (Python set.add). -/
def addName (l : List String) (s : String) : List String :=
  if l.contains s then l else l ++ [s]

/-- The shared mutable state of a run: the Stats counters, the
existing-name cache (self._existing), the duplicate-index id set
(self._duplicates._known_ids), the set of local files currently on disk,
and the trace of _notify invocations. The dl_failed and up_failed fields
are instrumentation not present in the Python Stats: they split the failed
counter into its download-stage and upload-stage contributions, as the
spec's conservation property words it. -/
structure PipeState where
  stats : Stats := {}
  existing : List String := []
  dupIds : List String := []
  disk : List String := []
  events : List Event := []
  dl_failed : Nat := 0
  up_failed : Nat := 0

/-- Embedding of Pipeline._notify for one-argument hooks: a missing hook is
skipped, a raising hook is caught and ignored (try/except pass). -/
def notifyMedia (cb : Option (Media → Except Unit Unit)) (m : Media) : Unit :=
  match cb with
  | none => ()
  | some f =>
    match f m with
    | Except.ok _ => ()
    | Except.error _ => ()

/-- Embedding of Pipeline._notify for two-argument hooks. -/
def notifyMediaStr (cb : Option (Media → String → Except Unit Unit))
    (m : Media) (s : String) : Unit :=
  match cb with
  | none => ()
  | some f =>
    match f m s with
    | Except.ok _ => ()
    | Except.error _ => ()

/-- Embedding of Pipeline._load_existing_files: with a list_all-capable
manager, the cache becomes the set of listed names; on an exception, or
without the capability, it stays empty. -/
def loadExistingFiles (env : ExternalEnv) : List String :=
  if env.megaHasListAll then
    match env.listAllNames with
    | Except.ok names => names.foldl addName []
    | Except.error _ => []
  else []

/-- The pipeline state right after Pipeline.run's setup: existing-name
cache loaded, duplicate ids loaded when a DuplicateChecker is configured. -/
def initState (env : ExternalEnv) : PipeState :=
  { existing := loadExistingFiles env
    dupIds := if env.dupConfigured then env.loadedDupIds.foldl addName [] else [] }

/-- Embedding of Pipeline._file_exists_in_mega over an explicit cache:
returns the boolean answer and the possibly-grown cache. A cache hit
answers true at once; otherwise an exists-capable manager is asked about
dest_folder/filename, a true answer is cached, and an exception from the
live check answers false. -/
def file_exists_in_mega (env : ExternalEnv) (opts : DownloadOptions)
    (existing : List String) (filename : String) : Bool × List String :=
  if existing.contains filename then (true, existing)
  else
    let full_path := opts.dest_folder ++ "/" ++ filename
    if env.megaHasExists then
      match env.megaExists full_path with
      | Except.ok true => (true, addName existing filename)
      | Except.ok false => (false, existing)
      | Except.error _ => (false, existing)
    else (false, existing)

/-- Whether every progress invocation of a transfer returns without
raising through the given hook. -/
def progressOk (f : Nat → Nat → Except Unit Unit) (l : List (Nat × Nat)) : Bool :=
  l.all fun p =>
    match f p.1 p.2 with
    | Except.ok _ => true
    | Except.error _ => false

/-- The local path TelegramClient.download resolves to on success
(telegram/client.py: dest_dir / media.download_name). -/
def dlPath (env : ExternalEnv) (m : Media) : String :=
  env.download_dir ++ "/" ++ m.download_name

/-- Embedding of the awaited self._tg.download call as the producer sees
it: when on_download_progress is set the pipeline passes a bare relay
lambda (pipeline.py line 99), so an exception the hook raises during a
progress invocation propagates out of the call; otherwise, and on a clean
run of the progress invocations, the call resolves to the download's
network outcome, with the deterministic target path on success. -/
def downloadCall (env : ExternalEnv) (cb : PipelineCallbacks) (m : Media) :
    Except String String :=
  match cb.on_download_progress with
  | none => (env.dlOutcome m).map fun _ => dlPath env m
  | some f =>
    if progressOk f (env.dlProgressEvents m) then
      (env.dlOutcome m).map fun _ => dlPath env m
    else Except.error "exception raised in on_download_progress"

/-- Embedding of Pipeline._upload_file: relays upload progress through a
bare wrapper (pipeline.py lines 151-152, same propagation as the download
relay), then maps the uploader's result to its source_id on success and
None otherwise. -/
def uploadFileCall (env : ExternalEnv) (cb : PipelineCallbacks) (m : Media) :
    Except String (Option String) :=
  let mapped : Except String (Option String) :=
    (env.upOutcome m).map fun r => if r.success then r.source_id else none
  match cb.on_upload_progress with
  | none => mapped
  | some f =>
    if progressOk f (env.upProgressEvents m) then mapped
    else Except.error "exception raised in on_upload_progress"

/-- The duplicate-skip condition of Pipeline.run lines 82-83: a configured
DuplicateChecker, a truthy document_id, and is_duplicate answering true
(duplicates.py: membership in the known-id set). -/
def dupSkip (env : ExternalEnv) (st : PipeState) (m : Media) : Bool :=
  env.dupConfigured && truthyStr m.document_id
    && st.dupIds.contains (m.document_id.getD "")

/-- One iteration of the producer loop of Pipeline.run (lines 67-107) for
one fetched item: bump total; run the three skip checks in order (filter,
duplicate, exists), each skip bumping skipped and firing on_skip with its
reason; otherwise fire on_start, download, and either bump downloaded, fire
on_download and enqueue the transfer (returned as some), or bump failed
and fire on_error. -/
def processItem (env : ExternalEnv) (cb : PipelineCallbacks)
    (opts : DownloadOptions) (st : PipeState) (m : Media) :
    PipeState × Option (Media × String) :=
  let stats1 := { st.stats with total := st.stats.total + 1 }
  if should_skip opts m then
    let _u := notifyMediaStr cb.on_skip m "filter"
    ({ st with stats := { stats1 with skipped := stats1.skipped + 1 }
               events := st.events ++ [Event.skip m "filter"] }, none)
  else if dupSkip env st m then
    let _u := notifyMediaStr cb.on_skip m "duplicate"
    ({ st with stats := { stats1 with skipped := stats1.skipped + 1 }
               events := st.events ++ [Event.skip m "duplicate"] }, none)
  else
    let fe := file_exists_in_mega env opts st.existing m.download_name
    if fe.1 then
      let _u := notifyMediaStr cb.on_skip m "exists"
      ({ st with stats := { stats1 with skipped := stats1.skipped + 1 }
                 existing := fe.2
                 events := st.events ++ [Event.skip m "exists"] }, none)
    else
      let _u := notifyMedia cb.on_start m
      match downloadCall env cb m with
      | Except.ok path =>
        let _u2 := notifyMedia cb.on_download m
        ({ st with
             stats := { stats1 with downloaded := stats1.downloaded + 1 }
             existing := fe.2
             events := st.events ++ [Event.start m, Event.download m]
             disk := addName st.disk path }, some (m, path))
      | Except.error e =>
        let _u2 := notifyMediaStr cb.on_error m e
        ({ st with
             stats := { stats1 with failed := stats1.failed + 1 }
             existing := fe.2
             events := st.events ++ [Event.start m, Event.error m e]
             dl_failed := st.dl_failed + 1 }, none)

/-- One iteration of the consumer loop of Pipeline._upload_worker (lines
115-136) for one dequeued transfer: attempt the upload; on a truthy result
bump uploaded, cache the destination name, record the fingerprint when a
duplicate index is configured, and fire on_upload; on a falsy result bump
failed; on an exception bump failed and fire on_error. In every case the
finally clause deletes the local file. -/
def consumeOne (env : ExternalEnv) (cb : PipelineCallbacks)
    (st : PipeState) (entry : Media × String) : PipeState :=
  let m := entry.1
  let path := entry.2
  let st' :=
    match uploadFileCall env cb m with
    | Except.ok res =>
      if truthyStr res then
        let id := res.getD ""
        let _u := notifyMediaStr cb.on_upload m id
        { st with
            stats := { st.stats with uploaded := st.stats.uploaded + 1 }
            existing := addName st.existing m.download_name
            dupIds :=
              if env.dupConfigured && truthyStr m.document_id then
                addName st.dupIds (m.document_id.getD "")
              else st.dupIds
            events := st.events ++ [Event.upload m id] }
      else
        { st with stats := { st.stats with failed := st.stats.failed + 1 }
                  up_failed := st.up_failed + 1 }
    | Except.error e =>
      let _u := notifyMediaStr cb.on_error m e
      { st with stats := { st.stats with failed := st.stats.failed + 1 }
                events := st.events ++ [Event.error m e]
                up_failed := st.up_failed + 1 }
  { st' with disk := st'.disk.filter fun p => !(p == path) }

/-- The producer loop over the whole (finite) fetched sequence, collecting
the transfers it enqueues in order. -/
def producerRun (env : ExternalEnv) (cb : PipelineCallbacks)
    (opts : DownloadOptions) :
    PipeState → List Media → PipeState × List (Media × String)
  | st, [] => (st, [])
  | st, m :: rest =>
    let r := processItem env cb opts st m
    let tail := producerRun env cb opts r.1 rest
    match r.2 with
    | none => tail
    | some e => (tail.1, e :: tail.2)

/-- The consumer loop over a queue of transfers, in FIFO order, up to the
sentinel. -/
def uploadWorker (env : ExternalEnv) (cb : PipelineCallbacks) :
    PipeState → List (Media × String) → PipeState
  | st, [] => st
  | st, e :: rest => uploadWorker env cb (consumeOne env cb st e) rest

/-- A complete run of Pipeline.run over a finite fetched sequence, in the
schedule where the consumer drains the queue the producer built (final
Stats and traces are schedule-independent; the transition system below
covers arbitrary interleavings of the two tasks). -/
def runPipeline (env : ExternalEnv) (cb : PipelineCallbacks)
    (opts : DownloadOptions) (items : List Media) : PipeState :=
  let pr := producerRun env cb opts (initState env) items
  uploadWorker env cb pr.1 pr.2

/-- The first matching skip rule of the producer, in the spec's order:
policy filter, then known-duplicate (only with a configured duplicate index
and a truthy fingerprint), then already-exists-at-destination. -/
def skipReasonSpec (env : ExternalEnv) (opts : DownloadOptions)
    (st : PipeState) (m : Media) : Option String :=
  if should_skip opts m then some "filter"
  else if dupSkip env st m then some "duplicate"
  else if (file_exists_in_mega env opts st.existing m.download_name).1 then
    some "exists"
  else none

/-- Whether a _notify invocation is an on_skip one. -/
def isSkipEvent : Event → Bool
  | Event.skip _ _ => true
  | _ => false

/-- Whether a _notify invocation is an on_error one. -/
def isErrorEvent : Event → Bool
  | Event.error _ _ => true
  | _ => false

/-! ## Transition system: the two cooperating tasks of Pipeline.run

Pipeline.run builds exactly one producer (the body of run itself) and one
consumer (the single upload_worker task), connected by one FIFO
asyncio.Queue whose end is marked by a None sentinel. A configuration
records both tasks' positions plus the shared state; a step is one task
acting. The enqueuedTrace and startedTrace fields are history
instrumentation (not program state): the transfers enqueued by the
producer and the transfers the consumer has begun uploading, each in
order. -/
structure Conf where
  shared : PipeState
  pending : List Media
  prodDone : Bool
  queue : List (Media × String)
  inFlight : List (Media × String)
  consDone : Bool
  enqueuedTrace : List (Media × String)
  startedTrace : List (Media × String)

/-- The producer's handling of one fetched item: run processItem on the
shared state and append the enqueued transfer, if any, to the queue (and
to the enqueue history). -/
def applyProd (env : ExternalEnv) (cb : PipelineCallbacks)
    (opts : DownloadOptions) (c : Conf) (m : Media) (rest : List Media) : Conf :=
  let r := processItem env cb opts c.shared m
  match r.2 with
  | none => { c with shared := r.1, pending := rest }
  | some e =>
    { c with shared := r.1, pending := rest,
             queue := c.queue ++ [e],
             enqueuedTrace := c.enqueuedTrace ++ [e] }

/-- One step of the cooperative pipeline: the producer handles the next
fetched item or, when the source is exhausted, pushes the sentinel
(prodDone); the consumer pops the next queued transfer when idle, finishes
the upload it has in flight, or observes the sentinel (an empty queue with
prodDone set) and stops. -/
inductive Step (env : ExternalEnv) (cb : PipelineCallbacks)
    (opts : DownloadOptions) : Conf → Conf → Prop where
  | prod_item (c : Conf) (m : Media) (rest : List Media)
      (hp : c.pending = m :: rest) (hd : c.prodDone = false) :
      Step env cb opts c (applyProd env cb opts c m rest)
  | prod_finish (c : Conf) (hp : c.pending = []) (hd : c.prodDone = false) :
      Step env cb opts c { c with prodDone := true }
  | cons_take (c : Conf) (e : Media × String) (q : List (Media × String))
      (hq : c.queue = e :: q) (hf : c.inFlight = []) (hc : c.consDone = false) :
      Step env cb opts c
        { c with queue := q, inFlight := [e],
                 startedTrace := c.startedTrace ++ [e] }
  | cons_upload (c : Conf) (e : Media × String) (hf : c.inFlight = [e]) :
      Step env cb opts c
        { c with shared := consumeOne env cb c.shared e, inFlight := [] }
  | cons_stop (c : Conf) (hq : c.queue = []) (hf : c.inFlight = [])
      (hp : c.prodDone = true) (hc : c.consDone = false) :
      Step env cb opts c { c with consDone := true }

/-- The configuration at the start of a run over a fetched sequence. -/
def initConf (env : ExternalEnv) (items : List Media) : Conf :=
  { shared := initState env, pending := items, prodDone := false,
    queue := [], inFlight := [], consDone := false,
    enqueuedTrace := [], startedTrace := [] }

/-- The configurations some interleaving of the two tasks can reach. -/
def Reachable (env : ExternalEnv) (cb : PipelineCallbacks)
    (opts : DownloadOptions) (items : List Media) (c : Conf) : Prop :=
  Relation.ReflTransGen (Step env cb opts) (initConf env items) c

/-- The run invariant: counter conservation against the outstanding work,
the split of failed into its two stages, the enqueue history as upload
history plus current queue, at most one in-flight upload, and the
done-flag orderings. -/
def Inv (c : Conf) : Prop :=
  c.shared.stats.total
      = c.shared.stats.skipped + c.shared.stats.failed + c.shared.stats.uploaded
          + c.queue.length + c.inFlight.length
  ∧ c.shared.stats.failed = c.shared.dl_failed + c.shared.up_failed
  ∧ c.enqueuedTrace = c.startedTrace ++ c.queue
  ∧ c.inFlight.length ≤ 1
  ∧ (c.prodDone = true → c.pending = [])
  ∧ (c.consDone = true → c.queue = [] ∧ c.inFlight = [] ∧ c.prodDone = true)

/-! ## Concrete instances used by witnesses and counterexamples -/

/-- A benign environment: no list_all or exists capability, no duplicate
index, one progress invocation per transfer, downloads and uploads both
succeeding. -/
def env0 : ExternalEnv :=
  { megaHasListAll := false
    listAllNames := Except.ok []
    megaHasExists := false
    megaExists := fun _ => Except.ok false
    dupConfigured := false
    loadedDupIds := []
    download_dir := "/root/.config/tgup/downloads"
    dlProgressEvents := fun _ => [(1, 2)]
    dlOutcome := fun _ => Except.ok ()
    upProgressEvents := fun _ => [(1, 2)]
    upOutcome := fun _ => Except.ok { success := true, source_id := some "node1" } }

/-- env0 with the uploader resolving to success = false. -/
def envUpFalse : ExternalEnv :=
  { env0 with upOutcome := fun _ => Except.ok { success := false } }

/-- env0 with an exists capability whose live check raises. -/
def envExistsRaises : ExternalEnv :=
  { env0 with megaHasExists := true, megaExists := fun _ => Except.error () }

/-- Default options with a concrete source. -/
def opts0 : DownloadOptions := { source := "@chan" }

/-- Options with a 50-pixel minimum-resolution filter. -/
def opts4 : DownloadOptions := { source := "@chan", min_resolution := some 50 }

/-- A plain video item. -/
def m0 : Media :=
  { message_id := 7, chat_id := 11, date := { day := 24, month := 3, year := 2024 },
    media_type := MediaType.video }

/-- A video item whose width is known but zero (truthiness edge case). -/
def m4 : Media :=
  { message_id := 1, chat_id := 1, date := { day := 1, month := 1, year := 2024 },
    media_type := MediaType.video, width := some 0, height := some 100 }

/-- Two items agreeing on the naming fields (message id, date, filename,
mime type, media type) but differing elsewhere. -/
def m8a : Media :=
  { message_id := 5, chat_id := 1, date := { day := 2, month := 3, year := 2024 },
    media_type := MediaType.video, file_size := 100,
    filename := some "clip.mp4", width := some 640 }

/-- See m8a. -/
def m8b : Media :=
  { message_id := 5, chat_id := 2, date := { day := 2, month := 3, year := 2024 },
    media_type := MediaType.video, file_size := 999,
    filename := some "clip.mp4", duration := some 10 }

/-- The empty callback bundle. -/
def cb0 : PipelineCallbacks := {}

/-- A bundle whose download-progress hook raises on every invocation. -/
def cbBoom : PipelineCallbacks :=
  { on_download_progress := some fun _ _ => Except.error () }

/-- A bundle whose five _notify-delivered hooks all raise. -/
def cbRaiseAll : PipelineCallbacks :=
  { on_start := some fun _ => Except.error ()
    on_download := some fun _ => Except.error ()
    on_upload := some fun _ _ => Except.error ()
    on_skip := some fun _ _ => Except.error ()
    on_error := some fun _ _ => Except.error () }

/-- A bundle with only an on_error hook installed. -/
def cbErr : PipelineCallbacks :=
  { on_error := some fun _ _ => Except.ok () }

/-- The terminal configuration of the empty run used by the conservation
witness. -/
def finalConf0 : Conf :=
  { initConf env0 [] with prodDone := true, consDone := true }

/-! ## Helper lemmas -/

/-- Python truthiness of a Nat agrees with positivity. -/
theorem nat_truthy (n : Nat) : (!(n == 0)) = decide (0 < n) := by
  cases n <;> simp

/-- Filtering a path out of the disk really removes it. -/
theorem not_mem_filter_ne (l : List String) (a : String) :
    a ∉ l.filter fun p => !(p == a) := by
  intro h
  have := List.of_mem_filter h
  simp at this

/-! ## C4: the skip decision -/

/-- C4 counterexample: with min_resolution = 50 and a known width of 0
(and height 100), the claim's reading skips the item, but _should_skip
does not: Python truthiness treats the zero width as missing. -/
theorem C4_counterexample :
    should_skip opts4 m4 = false ∧ shouldSkipClaim opts4 m4 = true := by
  decide

/-- C4 (amended): _should_skip returns skip exactly when min_resolution is
configured positive, width and height are both known and nonzero, and
min(width, height) < min_resolution, or min_duration is configured
positive, duration is known and nonzero, and duration < min_duration; an
item whose relevant attribute is missing or zero is never skipped by that
rule. -/
theorem C4_skip_decision (opts : DownloadOptions) (m : Media) :
    should_skip opts m = shouldSkipAmended opts m := by
  unfold should_skip shouldSkipAmended
  rcases opts.min_resolution with _ | r <;>
    rcases opts.min_duration with _ | d <;>
      rcases m.width with _ | w <;>
        rcases m.height with _ | h <;>
          rcases m.duration with _ | dur <;>
            simp [nat_truthy]

/-! ## C7: the existence check -/

/-- C7: a cached name answers true at once with the cache unchanged; a
cache miss with a live check answering true caches the name and answers
true; a cache miss whose live check raises answers false with the cache
unchanged (fail open). -/
theorem C7_file_check (env : ExternalEnv) (opts : DownloadOptions)
    (existing : List String) (fn : String) :
    (fn ∈ existing →
        file_exists_in_mega env opts existing fn = (true, existing)) ∧
    (fn ∉ existing → env.megaHasExists = true →
        env.megaExists (opts.dest_folder ++ "/" ++ fn) = Except.ok true →
        file_exists_in_mega env opts existing fn = (true, addName existing fn)) ∧
    (fn ∉ existing → env.megaHasExists = true →
        env.megaExists (opts.dest_folder ++ "/" ++ fn) = Except.error () →
        file_exists_in_mega env opts existing fn = (false, existing)) := by
  refine ⟨fun h => ?_, fun h hcap hok => ?_, fun h hcap herr => ?_⟩
  · simp [file_exists_in_mega, h]
  · simp [file_exists_in_mega, h, hcap, hok]
  · simp [file_exists_in_mega, h, hcap, herr]

/-! ## C8: deterministic destination naming -/

/-- C8: Media.download_name is a pure function of the item's message id,
date, original filename, mime type and media type: two items agreeing on
those fields get the identical destination name, whatever their other
fields. -/
theorem C8_name_deterministic (m1 m2 : Media)
    (h1 : m1.message_id = m2.message_id) (h2 : m1.date = m2.date)
    (h3 : m1.filename = m2.filename) (h4 : m1.mime_type = m2.mime_type)
    (h5 : m1.media_type = m2.media_type) :
    m1.download_name = m2.download_name := by
  unfold Media.download_name Media.guess_ext
  rw [h1, h2, h3, h4, h5]

/-- C8 witness: m8a and m8b agree on the naming fields but differ in
chat id, file size, width and duration, and get the same name. -/
theorem C8_name_deterministic_witness :
    m8a.download_name = m8b.download_name :=
  C8_name_deterministic m8a m8b rfl rfl rfl rfl rfl

/-! ## C5: order of the skip checks -/

/-- C5: for every item the producer handles, the on_skip invocations it
adds are exactly one with the first matching rule's reason (in the order
filter, duplicate, exists) when some rule matches, and none otherwise; in
particular an item that is both a known duplicate and already present gets
the duplicate reason only. -/
theorem C5_skip_order (env : ExternalEnv) (cb : PipelineCallbacks)
    (opts : DownloadOptions) (st : PipeState) (m : Media) :
    ((processItem env cb opts st m).1.events).filter isSkipEvent =
      st.events.filter isSkipEvent ++
        (match skipReasonSpec env opts st m with
         | some r => [Event.skip m r]
         | none => []) := by
  by_cases h1 : should_skip opts m
  · simp [processItem, skipReasonSpec, h1, isSkipEvent]
  · by_cases h2 : dupSkip env st m = true
    · simp [processItem, skipReasonSpec, h1, h2, isSkipEvent]
    · by_cases h3 : (file_exists_in_mega env opts st.existing m.download_name).1 = true
      · simp [processItem, skipReasonSpec, h1, h2, h3, isSkipEvent]
      · cases h4 : downloadCall env cb m with
        | ok path =>
          simp [processItem, skipReasonSpec, h1, h2, h3, h4, isSkipEvent]
        | error e =>
          simp [processItem, skipReasonSpec, h1, h2, h3, h4, isSkipEvent]

/-! ## C3: consumer behavior on a failed upload -/

/-- C3 counterexample: an upload resolving with success = false increments
failed but performs no _notify invocation at all — on_error does not fire
for the success = false case, even with an on_error hook installed. -/
theorem C3_counterexample :
    ((envUpFalse.upOutcome m0).toOption.map UploadResult.success) = some false ∧
    (consumeOne envUpFalse cbErr {} (m0, "/tmp/f.mp4")).stats.failed = 1 ∧
    (consumeOne envUpFalse cbErr {} (m0, "/tmp/f.mp4")).events = [] := by
  decide

/-- C3 (amended): a dequeued transfer whose upload attempt yields no
truthy source id (in particular success = false) increments failed by one
without firing any callback; one whose upload attempt raises increments
failed by one and fires on_error. -/
theorem C3_upload_failure_counts (env : ExternalEnv) (cb : PipelineCallbacks)
    (st : PipeState) (m : Media) (path : String) :
    (∀ res, uploadFileCall env cb m = Except.ok res → truthyStr res = false →
        (consumeOne env cb st (m, path)).stats.failed = st.stats.failed + 1 ∧
        (consumeOne env cb st (m, path)).events = st.events) ∧
    (∀ e, uploadFileCall env cb m = Except.error e →
        (consumeOne env cb st (m, path)).stats.failed = st.stats.failed + 1 ∧
        (consumeOne env cb st (m, path)).events = st.events ++ [Event.error m e]) := by
  constructor
  · intro res hok ht
    constructor <;> simp [consumeOne, hok, ht]
  · intro e herr
    constructor <;> simp [consumeOne, herr]

/-! ## C6: unconditional local-file cleanup -/

/-- C6: whatever the upload attempt does — success, success = false, or an
exception — the dequeued transfer's local file is gone from disk once the
consumer has handled the entry, and on either failure shape the failed
counter has grown by exactly one. -/
theorem C6_cleanup (env : ExternalEnv) (cb : PipelineCallbacks)
    (st : PipeState) (m : Media) (path : String) :
    path ∉ (consumeOne env cb st (m, path)).disk ∧
    (∀ res, uploadFileCall env cb m = Except.ok res → truthyStr res = false →
        (consumeOne env cb st (m, path)).stats.failed = st.stats.failed + 1) ∧
    (∀ e, uploadFileCall env cb m = Except.error e →
        (consumeOne env cb st (m, path)).stats.failed = st.stats.failed + 1) := by
  refine ⟨?_, fun res hok ht => ?_, fun e herr => ?_⟩
  · unfold consumeOne
    exact not_mem_filter_ne _ _
  · simp [consumeOne, hok, ht]
  · simp [consumeOne, herr]

/-! ## C2: callback exceptions -/

/-- C2 counterexample: with a downloader that emits one progress
invocation, installing an on_download_progress hook that raises flips the
single item's outcome from uploaded to failed — the raised exception is
relayed into the download call (pipeline.py line 99 passes the hook
through a bare lambda) and is then counted as a download failure, so a
callback exception does change Stats. -/
theorem C2_counterexample :
    (runPipeline env0 cb0 opts0 [m0]).stats.uploaded = 1 ∧
    (runPipeline env0 cb0 opts0 [m0]).stats.failed = 0 ∧
    (runPipeline env0 cbBoom opts0 [m0]).stats.uploaded = 0 ∧
    (runPipeline env0 cbBoom opts0 [m0]).stats.failed = 1 := by
  decide

/-- Per-item producer work does not depend on the five _notify-delivered
hooks: bundles agreeing on on_download_progress act identically. -/
theorem processItem_cb (env : ExternalEnv) (opts : DownloadOptions)
    (cb cb' : PipelineCallbacks) (st : PipeState) (m : Media)
    (h : cb.on_download_progress = cb'.on_download_progress) :
    processItem env cb opts st m = processItem env cb' opts st m := by
  unfold processItem downloadCall
  rw [h]

/-- Per-entry consumer work does not depend on the five _notify-delivered
hooks: bundles agreeing on on_upload_progress act identically. -/
theorem consumeOne_cb (env : ExternalEnv) (cb cb' : PipelineCallbacks)
    (st : PipeState) (e : Media × String)
    (h : cb.on_upload_progress = cb'.on_upload_progress) :
    consumeOne env cb st e = consumeOne env cb' st e := by
  unfold consumeOne uploadFileCall
  rw [h]

/-- The whole producer loop is independent of the _notify-delivered
hooks. -/
theorem producerRun_cb (env : ExternalEnv) (opts : DownloadOptions)
    (cb cb' : PipelineCallbacks) (items : List Media) (st : PipeState)
    (h : cb.on_download_progress = cb'.on_download_progress) :
    producerRun env cb opts st items = producerRun env cb' opts st items := by
  induction items generalizing st with
  | nil => rfl
  | cons m rest ih =>
    simp only [producerRun]
    simp only [processItem_cb env opts cb cb' st m h, ih]

/-- The whole consumer loop is independent of the _notify-delivered
hooks. -/
theorem uploadWorker_cb (env : ExternalEnv) (cb cb' : PipelineCallbacks)
    (queue : List (Media × String)) (st : PipeState)
    (h : cb.on_upload_progress = cb'.on_upload_progress) :
    uploadWorker env cb st queue = uploadWorker env cb' st queue := by
  induction queue generalizing st with
  | nil => rfl
  | cons e rest ih =>
    simp only [uploadWorker]
    simp only [consumeOne_cb env cb cb' st e h, ih]

/-- C2 (amended): exceptions raised by the five _notify-delivered hooks
(on_start, on_download, on_upload, on_skip, on_error) are fully swallowed —
two bundles agreeing on the progress hooks produce the identical run, so
those hooks never affect Stats, outcomes, events or run completion. The
two progress hooks are outside this guarantee (see the counterexample):
their exceptions surface inside the download/upload call and turn the
item into a counted failure, though the run still completes. -/
theorem C2_callback_isolation (env : ExternalEnv) (opts : DownloadOptions)
    (items : List Media) (cb cb' : PipelineCallbacks)
    (h1 : cb.on_download_progress = cb'.on_download_progress)
    (h2 : cb.on_upload_progress = cb'.on_upload_progress) :
    runPipeline env cb opts items = runPipeline env cb' opts items := by
  simp only [runPipeline]
  rw [producerRun_cb env opts cb cb' items (initState env) h1]
  rw [uploadWorker_cb env cb cb' _ _ h2]

/-- C2 witness: a bundle whose five _notify-delivered hooks all raise
produces the identical run to the empty bundle. -/
theorem C2_callback_isolation_witness :
    runPipeline env0 cbRaiseAll opts0 [m0] = runPipeline env0 cb0 opts0 [m0] :=
  C2_callback_isolation env0 opts0 [m0] cbRaiseAll cb0 rfl rfl

/-! ## Step lemmas for the transition system -/

/-- The counter deltas of one producer iteration: total always grows by
one, uploaded and the upload-failure split are untouched, and the item
lands in exactly one of skip, download-failure, or enqueued. -/
theorem processItem_stats (env : ExternalEnv) (cb : PipelineCallbacks)
    (opts : DownloadOptions) (st : PipeState) (m : Media) :
    (processItem env cb opts st m).1.stats.total = st.stats.total + 1 ∧
    (processItem env cb opts st m).1.stats.uploaded = st.stats.uploaded ∧
    (processItem env cb opts st m).1.up_failed = st.up_failed ∧
    (((processItem env cb opts st m).2 = none ∧
        (processItem env cb opts st m).1.stats.skipped = st.stats.skipped + 1 ∧
        (processItem env cb opts st m).1.stats.failed = st.stats.failed ∧
        (processItem env cb opts st m).1.dl_failed = st.dl_failed ∧
        (processItem env cb opts st m).1.stats.downloaded = st.stats.downloaded) ∨
     ((processItem env cb opts st m).2 = none ∧
        (processItem env cb opts st m).1.stats.skipped = st.stats.skipped ∧
        (processItem env cb opts st m).1.stats.failed = st.stats.failed + 1 ∧
        (processItem env cb opts st m).1.dl_failed = st.dl_failed + 1 ∧
        (processItem env cb opts st m).1.stats.downloaded = st.stats.downloaded) ∨
     (∃ p, (processItem env cb opts st m).2 = some (m, p) ∧
        (processItem env cb opts st m).1.stats.skipped = st.stats.skipped ∧
        (processItem env cb opts st m).1.stats.failed = st.stats.failed ∧
        (processItem env cb opts st m).1.dl_failed = st.dl_failed ∧
        (processItem env cb opts st m).1.stats.downloaded = st.stats.downloaded + 1)) := by
  by_cases h1 : should_skip opts m
  · simp [processItem, h1]
  · by_cases h2 : dupSkip env st m = true
    · simp [processItem, h1, h2]
    · by_cases h3 : (file_exists_in_mega env opts st.existing m.download_name).1 = true
      · simp [processItem, h1, h2, h3]
      · cases h4 : downloadCall env cb m with
        | ok path => simp [processItem, h1, h2, h3, h4]
        | error e => simp [processItem, h1, h2, h3, h4]

/-- The counter deltas of one consumer iteration: total, skipped,
downloaded and the download-failure split are untouched; the entry becomes
either uploaded or an upload failure. -/
theorem consumeOne_stats (env : ExternalEnv) (cb : PipelineCallbacks)
    (st : PipeState) (e : Media × String) :
    (consumeOne env cb st e).stats.total = st.stats.total ∧
    (consumeOne env cb st e).stats.skipped = st.stats.skipped ∧
    (consumeOne env cb st e).stats.downloaded = st.stats.downloaded ∧
    (consumeOne env cb st e).dl_failed = st.dl_failed ∧
    (((consumeOne env cb st e).stats.uploaded = st.stats.uploaded + 1 ∧
        (consumeOne env cb st e).stats.failed = st.stats.failed ∧
        (consumeOne env cb st e).up_failed = st.up_failed) ∨
     ((consumeOne env cb st e).stats.uploaded = st.stats.uploaded ∧
        (consumeOne env cb st e).stats.failed = st.stats.failed + 1 ∧
        (consumeOne env cb st e).up_failed = st.up_failed + 1)) := by
  cases hu : uploadFileCall env cb e.1 with
  | ok res =>
    by_cases ht : truthyStr res = true
    · simp [consumeOne, hu, ht]
    · simp [consumeOne, hu, ht]
  | error er => simp [consumeOne, hu]

/-- The invariant holds at the initial configuration. -/
theorem inv_init (env : ExternalEnv) (items : List Media) :
    Inv (initConf env items) := by
  simp [Inv, initConf, initState]

/-- Every step of either task preserves the invariant. -/
theorem inv_step (env : ExternalEnv) (cb : PipelineCallbacks)
    (opts : DownloadOptions) (c c' : Conf)
    (hs : Step env cb opts c c') (hi : Inv c) : Inv c' := by
  obtain ⟨i1, i2, i3, i4, i5, i6⟩ := hi
  cases hs with
  | prod_item m rest hp hd =>
    obtain ⟨p1, p2, p3, pc⟩ := processItem_stats env cb opts c.shared m
    have hnc : c.consDone = false := by
      cases hcd : c.consDone
      · rfl
      · have hpd := (i6 hcd).2.2
        rw [hd] at hpd
        exact absurd hpd Bool.false_ne_true
    rcases pc with ⟨hnone, q1, q2, q3, q4⟩ | ⟨hnone, q1, q2, q3, q4⟩ |
        ⟨p, hsome, q1, q2, q3, q4⟩
    · refine ⟨?_, ?_, ?_, ?_, ?_, ?_⟩
      · simp only [applyProd, hnone]
        omega
      · simp only [applyProd, hnone]
        omega
      · simp only [applyProd, hnone]
        exact i3
      · simp only [applyProd, hnone]
        exact i4
      · simp only [applyProd, hnone]
        simp [hd]
      · simp only [applyProd, hnone]
        simp [hnc]
    · refine ⟨?_, ?_, ?_, ?_, ?_, ?_⟩
      · simp only [applyProd, hnone]
        omega
      · simp only [applyProd, hnone]
        omega
      · simp only [applyProd, hnone]
        exact i3
      · simp only [applyProd, hnone]
        exact i4
      · simp only [applyProd, hnone]
        simp [hd]
      · simp only [applyProd, hnone]
        simp [hnc]
    · refine ⟨?_, ?_, ?_, ?_, ?_, ?_⟩
      · simp only [applyProd, hsome]
        simp only [List.length_append, List.length_cons, List.length_nil]
        omega
      · simp only [applyProd, hsome]
        omega
      · simp only [applyProd, hsome]
        rw [i3, List.append_assoc]
      · simp only [applyProd, hsome]
        exact i4
      · simp only [applyProd, hsome]
        simp [hd]
      · simp only [applyProd, hsome]
        simp [hnc]
  | prod_finish hp hd =>
    refine ⟨i1, i2, i3, i4, fun _ => hp, fun hC => ?_⟩
    obtain ⟨hq', hf', _⟩ := i6 hC
    exact ⟨hq', hf', rfl⟩
  | cons_take e q hq hf hc =>
    have hlen : c.queue.length = q.length + 1 := by rw [hq]; rfl
    have hflen : c.inFlight.length = 0 := by rw [hf]; rfl
    refine ⟨?_, i2, ?_, ?_, i5, ?_⟩
    · dsimp only
      simp only [List.length_cons, List.length_nil]
      omega
    · dsimp only
      rw [i3, hq]
      simp
    · dsimp only
      simp
    · dsimp only
      simp [hc]
  | cons_upload e hf =>
    obtain ⟨u1, u2, u3, u4, uc⟩ := consumeOne_stats env cb c.shared e
    have hflen : c.inFlight.length = 1 := by rw [hf]; rfl
    refine ⟨?_, ?_, i3, ?_, i5, ?_⟩
    · dsimp only
      simp only [List.length_nil]
      rcases uc with ⟨v1, v2, v3⟩ | ⟨v1, v2, v3⟩ <;> omega
    · dsimp only
      rcases uc with ⟨v1, v2, v3⟩ | ⟨v1, v2, v3⟩ <;> omega
    · dsimp only
      simp
    · dsimp only
      intro hC
      have h0 := (i6 hC).2.1
      rw [hf] at h0
      exact absurd h0 (List.cons_ne_nil e [])
  | cons_stop hq hf hp hc =>
    exact ⟨i1, i2, i3, i4, i5, fun _ => ⟨hq, hf, hp⟩⟩

/-- Every reachable configuration satisfies the invariant. -/
theorem reachable_inv (env : ExternalEnv) (cb : PipelineCallbacks)
    (opts : DownloadOptions) (items : List Media) (c : Conf)
    (h : Reachable env cb opts items c) : Inv c := by
  have h' : Relation.ReflTransGen (Step env cb opts) (initConf env items) c := h
  clear h
  induction h' with
  | refl => exact inv_init env items
  | tail hsteps hstep ih => exact inv_step env cb opts _ _ hstep ih

/-! ## C1: conservation at run completion -/

/-- C1: in every completed run (the consumer has observed the sentinel),
total = skipped + failed + uploaded, and failed is exactly the sum of the
download-stage and upload-stage failure counts — every seen item is
accounted once. -/
theorem C1_conservation (env : ExternalEnv) (cb : PipelineCallbacks)
    (opts : DownloadOptions) (items : List Media) (c : Conf)
    (h : Reachable env cb opts items c) (hdone : c.consDone = true) :
    c.shared.stats.total
        = c.shared.stats.skipped + c.shared.stats.failed + c.shared.stats.uploaded
      ∧ c.shared.stats.failed = c.shared.dl_failed + c.shared.up_failed := by
  obtain ⟨i1, i2, _, _, _, i6⟩ := reachable_inv env cb opts items c h
  obtain ⟨hq, hf, _⟩ := i6 hdone
  refine ⟨?_, i2⟩
  rw [i1, hq, hf]
  simp

/-- C1 witness: the completed empty run. -/
theorem C1_conservation_witness :
    finalConf0.shared.stats.total
        = finalConf0.shared.stats.skipped + finalConf0.shared.stats.failed
            + finalConf0.shared.stats.uploaded
      ∧ finalConf0.shared.stats.failed
        = finalConf0.shared.dl_failed + finalConf0.shared.up_failed := by
  refine C1_conservation env0 cb0 opts0 [] finalConf0 ?_ rfl
  exact Relation.ReflTransGen.tail
    (Relation.ReflTransGen.single (Step.prod_finish (initConf env0 []) rfl rfl))
    (Step.cons_stop { initConf env0 [] with prodDone := true } rfl rfl rfl rfl)

/-! ## C9: FIFO upload order, at most one upload in flight -/

/-- C9: in every reachable configuration the sequence of transfers whose
upload has been begun is an initial segment of the sequence of enqueued
(download-completed) transfers — uploads are attempted in exactly the
order downloads completed — and at most one upload is in flight. -/
theorem C9_fifo_single_flight (env : ExternalEnv) (cb : PipelineCallbacks)
    (opts : DownloadOptions) (items : List Media) (c : Conf)
    (h : Reachable env cb opts items c) :
    (∃ rest, c.enqueuedTrace = c.startedTrace ++ rest)
      ∧ c.inFlight.length ≤ 1 := by
  obtain ⟨_, _, i3, i4, _, _⟩ := reachable_inv env cb opts items c h
  exact ⟨⟨c.queue, i3⟩, i4⟩

/-- C9 witness: the initial configuration of a one-item run. -/
theorem C9_fifo_single_flight_witness :
    (∃ rest, (initConf env0 [m0]).enqueuedTrace
        = (initConf env0 [m0]).startedTrace ++ rest)
      ∧ (initConf env0 [m0]).inFlight.length ≤ 1 :=
  C9_fifo_single_flight env0 cb0 opts0 [m0] (initConf env0 [m0])
    Relation.ReflTransGen.refl

/-! ## C10: counters never decrease -/

/-- C10: every step of either task leaves each of the five Stats counters
unchanged or increments it by exactly one — no step decrements or resets a
counter, so counters are monotone along every run and a live reader never
observes one going down. -/
theorem C10_counters_monotone (env : ExternalEnv) (cb : PipelineCallbacks)
    (opts : DownloadOptions) (c c' : Conf) (hs : Step env cb opts c c') :
    (c'.shared.stats.total = c.shared.stats.total
        ∨ c'.shared.stats.total = c.shared.stats.total + 1)
      ∧ (c'.shared.stats.downloaded = c.shared.stats.downloaded
        ∨ c'.shared.stats.downloaded = c.shared.stats.downloaded + 1)
      ∧ (c'.shared.stats.uploaded = c.shared.stats.uploaded
        ∨ c'.shared.stats.uploaded = c.shared.stats.uploaded + 1)
      ∧ (c'.shared.stats.skipped = c.shared.stats.skipped
        ∨ c'.shared.stats.skipped = c.shared.stats.skipped + 1)
      ∧ (c'.shared.stats.failed = c.shared.stats.failed
        ∨ c'.shared.stats.failed = c.shared.stats.failed + 1) := by
  cases hs with
  | prod_item m rest hp hd =>
    obtain ⟨p1, p2, p3, pc⟩ := processItem_stats env cb opts c.shared m
    rcases pc with ⟨hnone, q1, q2, q3, q4⟩ | ⟨hnone, q1, q2, q3, q4⟩ |
        ⟨p, hsome, q1, q2, q3, q4⟩
    · refine ⟨?_, ?_, ?_, ?_, ?_⟩ <;> simp only [applyProd, hnone] <;> omega
    · refine ⟨?_, ?_, ?_, ?_, ?_⟩ <;> simp only [applyProd, hnone] <;> omega
    · refine ⟨?_, ?_, ?_, ?_, ?_⟩ <;> simp only [applyProd, hsome] <;> omega
  | prod_finish hp hd =>
    exact ⟨Or.inl rfl, Or.inl rfl, Or.inl rfl, Or.inl rfl, Or.inl rfl⟩
  | cons_take e q hq hf hc =>
    exact ⟨Or.inl rfl, Or.inl rfl, Or.inl rfl, Or.inl rfl, Or.inl rfl⟩
  | cons_upload e hf =>
    obtain ⟨u1, u2, u3, u4, uc⟩ := consumeOne_stats env cb c.shared e
    rcases uc with ⟨v1, v2, v3⟩ | ⟨v1, v2, v3⟩ <;>
      refine ⟨?_, ?_, ?_, ?_, ?_⟩ <;> dsimp only <;> omega
  | cons_stop hq hf hp hc =>
    exact ⟨Or.inl rfl, Or.inl rfl, Or.inl rfl, Or.inl rfl, Or.inl rfl⟩

/-- C10 witness: the sentinel-pushing step of the empty run. -/
theorem C10_counters_monotone_witness :
    (({ initConf env0 [] with prodDone := true } : Conf).shared.stats.total
          = (initConf env0 []).shared.stats.total
        ∨ ({ initConf env0 [] with prodDone := true } : Conf).shared.stats.total
          = (initConf env0 []).shared.stats.total + 1)
      ∧ (({ initConf env0 [] with prodDone := true } : Conf).shared.stats.downloaded
          = (initConf env0 []).shared.stats.downloaded
        ∨ ({ initConf env0 [] with prodDone := true } : Conf).shared.stats.downloaded
          = (initConf env0 []).shared.stats.downloaded + 1)
      ∧ (({ initConf env0 [] with prodDone := true } : Conf).shared.stats.uploaded
          = (initConf env0 []).shared.stats.uploaded
        ∨ ({ initConf env0 [] with prodDone := true } : Conf).shared.stats.uploaded
          = (initConf env0 []).shared.stats.uploaded + 1)
      ∧ (({ initConf env0 [] with prodDone := true } : Conf).shared.stats.skipped
          = (initConf env0 []).shared.stats.skipped
        ∨ ({ initConf env0 [] with prodDone := true } : Conf).shared.stats.skipped
          = (initConf env0 []).shared.stats.skipped + 1)
      ∧ (({ initConf env0 [] with prodDone := true } : Conf).shared.stats.failed
          = (initConf env0 []).shared.stats.failed
        ∨ ({ initConf env0 [] with prodDone := true } : Conf).shared.stats.failed
          = (initConf env0 []).shared.stats.failed + 1) :=
  C10_counters_monotone env0 cb0 opts0 (initConf env0 [])
    { initConf env0 [] with prodDone := true }
    (Step.prod_finish (initConf env0 []) rfl rfl)

end Tgup
